import Mathlib

/-!
Verification of the DartGameSystem detection core against its specification.

The repository consists of patch scripts whose embedded C++/C#/Python fragments
carry the logic of the detection pipeline.  Each fragment that a claim depends
on is shallowly embedded below: machine doubles are modelled as rationals
(or reals where trigonometry is involved), C++ structs become Lean structures,
and the imperative blocks become pure functions.
-/

set_option maxHeartbeats 1000000
set_option linter.unnecessarySeqFocus false

/- ======================================================================
   patch_mult.py: IntersectionResult construction and the majority-vote
   multiplier override block (the "new" fragment, lines 21-60).
   ====================================================================== -/

/-- Per-camera score vote (the data.vote echoed into result.per_camera);
the override block reads only its multiplier field. -/
structure CamVote where
  segment : Int
  multiplier : Int
  deriving DecidableEq, Repr

/-- Per-camera line data as seen by the result-assembly fragment
(only the vote field is read there). -/
structure CamLineData where
  vote : CamVote
  deriving DecidableEq, Repr

/-- The winning candidate score triple (best->score in patch_mult.py). -/
structure ScoreTriple where
  segment : Int
  multiplier : Int
  score : Int
  deriving DecidableEq, Repr

/-- The best candidate fields read by the result-assembly fragment. -/
structure BestCandidate where
  score : ScoreTriple
  coords : Rat × Rat
  total_error : Rat
  deriving DecidableEq, Repr

/-- IntersectionResult of patch_mult.py (fields assigned at lines 21-30). -/
structure IntersectionResult where
  segment : Int
  multiplier : Int
  score : Int
  method : String
  confidence : Rat
  coords : Rat × Rat
  total_error : Rat
  per_camera : List (String × CamVote)
  deriving DecidableEq, Repr

/-- mult_votes tally of patch_mult.py lines 35-39: the number of cameras whose
vote.multiplier equals m (the C++ array only records m between 1 and 3, and is
only ever read at those indices, so a counting function agrees with it there). -/
def multVotes (cam_lines : List (String × CamLineData)) (m : Int) : Nat :=
  (cam_lines.filter (fun cd => cd.2.vote.multiplier == m)).length

/-- The majority scan of patch_mult.py lines 40-47: majority_mult starts at the
winning candidate multiplier with max_votes 0, then m = 1, 2, 3 in order replaces
the pair whenever mult_votes[m] is strictly greater than max_votes. -/
def majorityScan (votes : Int → Nat) (init : Int) : Int × Nat :=
  [1, 2, 3].foldl (fun acc m => if acc.2 < votes m then (m, votes m) else acc) (init, 0)

/-- Score recomputation of patch_mult.py lines 50-55: segment 25 is the bull
(50 for multiplier 2, else 25), every other segment scores segment times
multiplier. -/
def recomputeScore (segment multiplier : Int) : Int :=
  if segment = 25 then (if multiplier = 2 then 50 else 25) else segment * multiplier

/-- The majority-vote override block of patch_mult.py lines 32-57, applied to the
already-assembled IntersectionResult: when at least two cameras agree on a
multiplier that differs from the intersection result, the multiplier is replaced
and the score recomputed; otherwise the result is returned unchanged. -/
def applyMultiplierOverride (r : IntersectionResult)
    (cam_lines : List (String × CamLineData)) : IntersectionResult :=
  let p := majorityScan (multVotes cam_lines) r.multiplier
  if 2 ≤ p.2 ∧ p.1 ≠ r.multiplier then
    { r with multiplier := p.1, score := recomputeScore r.segment p.1 }
  else r

/-- The full "new" fragment of patch_mult.py: assemble the IntersectionResult
from the best candidate, method, confidence and per-camera votes (lines 21-30),
then run the override block. -/
def buildIntersectionResult (best : BestCandidate) (method : String)
    (confidence : Rat) (cam_lines : List (String × CamLineData)) :
    IntersectionResult :=
  let r : IntersectionResult :=
    { segment := best.score.segment
      multiplier := best.score.multiplier
      score := best.score.score
      method := method
      confidence := confidence
      coords := best.coords
      total_error := best.total_error
      per_camera := cam_lines.map (fun cd => (cd.1, cd.2.vote)) }
  applyMultiplierOverride r cam_lines

/- ======================================================================
   plot_warped_lines.py lines 9-17 and phase8b_homography_audit.py
   lines 67-71: the fixed segment order and normalized ring constants.
   ====================================================================== -/

/-- SEGMENT_ORDER of plot_warped_lines.py line 9: the clockwise segment numbers
starting from the top of the board. -/
def SEGMENT_ORDER : List Nat := [20, 1, 18, 4, 13, 6, 10, 15, 2, 17, 3, 19, 7, 16, 8, 11, 14, 9, 12, 5]

/-- NORM_RINGS of plot_warped_lines.py lines 10-17: normalized ring radii
(fractions of the 170 mm board radius). -/
def NORM_RINGS : List (String × Rat) :=
  [("bullseye", 6.35 / 170),
   ("bull", 16.0 / 170),
   ("triple_inner", 99.0 / 170),
   ("triple_outer", 107.0 / 170),
   ("double_inner", 162.0 / 170),
   ("double_outer", 1.0)]

/-- ring_configs of phase8b_homography_audit.py lines 67-71: the same normalized
radii keyed by the calibrated ellipse names, in the order the control-point
builder walks them. -/
def ring_configs : List (String × Rat) :=
  [("outer_double_ellipse", 170.0 / 170.0), ("inner_double_ellipse", 162.0 / 170.0),
   ("outer_triple_ellipse", 107.0 / 170.0), ("inner_triple_ellipse", 99.0 / 170.0),
   ("bull_ellipse", 16.0 / 170.0), ("bullseye_ellipse", 6.35 / 170.0)]

/- ======================================================================
   optimize_whrs.py: WHRS weight search by coordinate descent
   (lines 36-84).
   ====================================================================== -/

/-- The seven WHRS weight names (optimize_whrs.py line 49). -/
inductive WName where
  | wR | wI | wA | wQ | wB | wD | wC
  deriving DecidableEq, Repr

/-- weight_names of optimize_whrs.py line 49. -/
def weight_names : List WName := [.wR, .wI, .wA, .wQ, .wB, .wD, .wC]

/-- search_multipliers of optimize_whrs.py line 50. -/
def search_multipliers : List Rat := [0.5, 0.75, 1.25, 1.5, 2.0]

/-- The Phase 26 default weights of optimize_whrs.py line 36. -/
def whrsDefaults : WName → Rat
  | .wR => 0.30
  | .wI => 0.15
  | .wA => 0.20
  | .wQ => 0.10
  | .wB => 0.10
  | .wD => 0.10
  | .wC => 0.05

/-- The search state: best_weights and best_correct of lines 42-44. -/
structure OptState where
  best_weights : WName → Rat
  best_correct : Nat

/-- One multiplier trial of lines 60-74: the candidate value base_val * mult is
skipped outside [0.01, 0.80]; otherwise the replay correct count at the test
weights (current best weights with wname replaced) is adopted for the dimension
exactly when it strictly exceeds the current best for the dimension. -/
def tryMult (f : (WName → Rat) → Nat) (w : WName → Rat) (wname : WName)
    (base_val : Rat) (acc : Nat × Rat) (mult : Rat) : Nat × Rat :=
  let test_val := base_val * mult
  if test_val < 0.01 ∨ test_val > 0.80 then acc
  else
    let correct := f (Function.update w wname test_val)
    if acc.1 < correct then (correct, test_val) else acc

/-- One coordinate-descent dimension of lines 54-79: fold the multiplier trials
starting from (best_correct, base_val) and commit the dimension winner exactly
when its value differs from base_val. -/
def optimizeDim (f : (WName → Rat) → Nat) (s : OptState) (wname : WName) : OptState :=
  let base_val := s.best_weights wname
  let best := search_multipliers.foldl (tryMult f s.best_weights wname base_val)
    (s.best_correct, base_val)
  if best.2 ≠ base_val then
    { best_weights := Function.update s.best_weights wname best.2
      best_correct := best.1 }
  else s

/-- One round over all seven weights (lines 52-79). -/
def optimizeRound (f : (WName → Rat) → Nat) (s : OptState) : OptState :=
  weight_names.foldl (optimizeDim f) s

/-- The whole search of optimize_whrs.py: baseline at the Phase 26 defaults,
then two rounds of coordinate descent (line 52).  f is the replay correct-count
as a function of the weights; modelling the replay as a function is exactly the
determinism assumption of the claim. -/
def optimize_whrs (f : (WName → Rat) → Nat) : OptState :=
  (List.range 2).foldl (fun s _ => optimizeRound f s)
    { best_weights := whrsDefaults, best_correct := f whrsDefaults }

/- ======================================================================
   fix_miss.py: the no-tip branch of the detect endpoint (the "new"
   C# fragment, lines 11-34).
   ====================================================================== -/

/-- DartThrow as assigned by the miss-recording branch. -/
structure DartThrow where
  index : Nat
  segment : Int
  multiplier : Int
  zone : String
  score : Int
  xMm : Rat
  yMm : Rat
  confidence : Rat
  deriving DecidableEq, Repr

/-- The external detector result as the endpoint sees it: the tip list may be
absent (Tips == null). -/
structure DetectResult (Tip : Type) where
  tips : Option (List Tip)

/-- The C# guard of fix_miss.py line 11: detectResult null, Tips null, or no
tips. -/
def noUsableTips {Tip : Type} (detectResult : Option (DetectResult Tip)) : Bool :=
  match detectResult with
  | none => true
  | some dr =>
    match dr.tips with
    | none => true
    | some tips => tips.isEmpty

/-- Game state: the engine-choice flag plus opaque-to-this-fragment game data
(the engines themselves live outside the fragment and are passed in as
functions). -/
structure Game (γ : Type) where
  isX01Engine : Bool
  state : γ

/-- Endpoint response summary: success flag (Ok(...)), message, the echoed
darts array (Zone, Score, Segment, Multiplier), the recorded dart, and the
game after processing. -/
structure EndpointResponse (γ : Type) where
  ok : Bool
  message : String
  darts : List (String × Int × Int × Int)
  recorded : Option DartThrow
  game : Game γ

/-- The missDart literal of fix_miss.py lines 15-25: Index is the count of the
darts already thrown this turn, Segment 0, Multiplier 0, Zone miss, Score 0. -/
def missDartOf (dartsThisTurn : List DartThrow) : DartThrow :=
  { index := dartsThisTurn.length, segment := 0, multiplier := 0, zone := "miss",
    score := 0, xMm := 0, yMm := 0, confidence := 0 }

/-- The miss-recording branch of fix_miss.py lines 13-33: build the miss dart
(segment 0, multiplier 0, zone miss, score 0), push it through the normal dart
pipeline (x01 engine when game.IsX01Engine, else the manual game service), and
answer Ok with the dart echoed. -/
def recordMiss {γ : Type} (dartsThisTurn : List DartThrow) (game : Game γ)
    (processDart applyManualDart : Game γ → DartThrow → Game γ) :
    EndpointResponse γ :=
  let missDart : DartThrow := missDartOf dartsThisTurn
  let game' := if game.isX01Engine then processDart game missDart
               else applyManualDart game missDart
  { ok := true
    message := "Miss recorded"
    darts := [(missDart.zone, missDart.score, missDart.segment, missDart.multiplier)]
    recorded := some missDart
    game := game' }

/-- The guarded endpoint head: when no usable detection the miss branch runs;
the non-empty continuation is outside this fragment (none). -/
def detectEndpointHead {Tip γ : Type} (detectResult : Option (DetectResult Tip))
    (dartsThisTurn : List DartThrow) (game : Game γ)
    (processDart applyManualDart : Game γ → DartThrow → Game γ) :
    Option (EndpointResponse γ) :=
  if noUsableTips detectResult then
    some (recordMiss dartsThisTurn game processDart applyManualDart)
  else none

/- ======================================================================
   apply_edits.py: Phase 28 CBFC wiring (the new_whrs_call fragment,
   lines 47-65) and the HhsCandidateExport struct (lines 93-108).
   ====================================================================== -/

/-- HhsCandidateExport of apply_edits.py lines 93-108. -/
structure HhsCandidateExport where
  type : String
  coords : Rat × Rat
  radius : Rat
  theta_deg : Rat
  score : ScoreTriple
  weighted_median_residual : Rat
  inlier_camera_count : Int
  axis_support_count : Int
  sum_qi : Rat
  max_qi : Rat
  cameras_used : Int
  radial_delta_from_tri : Rat
  ring_boundary_distance : Rat
  reproj_error_per_cam : List (String × Rat)
  deriving DecidableEq, Repr

/-- One CBFC learn-log observation: the argument tuple of
cbfc_log_single_cam_projection. -/
structure CbfcObservation where
  camera_id : String
  radius_norm : Rat
  theta_deg : Rat
  coord_x : Rat
  coord_y : Rat
  deriving DecidableEq, Repr

/-- The observation the learn branch builds from a single-camera candidate:
the type string after its first seven characters is the camera id
(cand.type.substr(7) in the fragment). -/
def obsOfCandidate (cand : HhsCandidateExport) : CbfcObservation :=
  { camera_id := cand.type.drop 7
    radius_norm := cand.radius
    theta_deg := cand.theta_deg
    coord_x := cand.coords.1
    coord_y := cand.coords.2 }

/-- Modelled from the spec: cbfc.cpp is not under src/, only its declarations
and call sites are.  Spec section 4.4 says Learn mode appends the observation
for single-camera candidates lacking conflicting multi-camera evidence, so the
logger body appends exactly when the conflict predicate (abstract, supplied to
the model) is false. -/
def cbfc_log_single_cam_projection (conflict : CbfcObservation → Bool)
    (log : List CbfcObservation) (obs : CbfcObservation) : List CbfcObservation :=
  if conflict obs then log else log ++ [obs]

/-- The learn-mode loop body of apply_edits.py lines 50-58: a candidate whose
type starts with the seven-character single-camera tag is handed to the logger
with its camera id (the type after those seven characters), radius, angle and
coordinates; any other candidate leaves the log alone. -/
def learnLogStep (conflict : CbfcObservation → Bool)
    (lg : List CbfcObservation) (cand : HhsCandidateExport) : List CbfcObservation :=
  if cand.type.take 7 = "single_" then
    cbfc_log_single_cam_projection conflict lg (obsOfCandidate cand)
  else lg

/-- The Phase 28 wiring of apply_edits.py lines 47-65: when CBFC is enabled,
mode 1 walks the candidate list and logs each candidate whose type starts with
the seven characters of the single-camera tag, mode 2 passes the candidate
list through cbfc_correct_candidates (abstract: its body is in cbfc.cpp), and
any other mode leaves everything alone.  The first component is the candidate
list that WHRS then scores, the second the learn log. -/
def cbfcStep (cbfc_enabled : Bool) (cbfc_mode : Int)
    (conflict : CbfcObservation → Bool)
    (cbfc_correct_candidates : List HhsCandidateExport → List HhsCandidateExport)
    (cands : List HhsCandidateExport) (log : List CbfcObservation) :
    List HhsCandidateExport × List CbfcObservation :=
  if cbfc_enabled then
    if cbfc_mode = 1 then
      (cands, cands.foldl (learnLogStep conflict) log)
    else if cbfc_mode = 2 then
      (cbfc_correct_candidates cands, log)
    else (cands, log)
  else (cands, log)

/-- The pipeline order around WHRS: the CBFC step runs first and whrs_select
scores the candidate list it returns (whrs_select abstract; its internals are
not part of the claim). -/
def cbfcThenWhrs {ρ : Type} (cbfc_enabled : Bool) (cbfc_mode : Int)
    (conflict : CbfcObservation → Bool)
    (cbfc_correct_candidates : List HhsCandidateExport → List HhsCandidateExport)
    (whrs_select : List HhsCandidateExport → ρ)
    (cands : List HhsCandidateExport) (log : List CbfcObservation) :
    ρ × List CbfcObservation :=
  let r := cbfcStep cbfc_enabled cbfc_mode conflict cbfc_correct_candidates cands log
  (whrs_select r.1, r.2)

/- ======================================================================
   apply_edits.py: dd_set_flag dispatch (the new_dispatch fragment,
   lines 36-39), generalized over the module chain.
   ====================================================================== -/

/-- A feature module's flag handler over the flag state.  Modelled from the
spec: set_cbfc_flag / set_whrs_flag bodies live in cbfc.cpp / whrs.cpp, not
under src/; spec section 6 says each module recognizes a set of named flags,
stores the value on success (returning 0) and reports failure otherwise
without touching any state. -/
structure FlagModule (σ : Type) where
  recognizes : String → Bool
  store : σ → String → Int → σ

/-- One module's set_xxx_flag call (modelled from the spec as above). -/
def set_module_flag {σ : Type} (m : FlagModule σ) (s : σ) (name : String)
    (value : Int) : Int × σ :=
  if m.recognizes name then (0, m.store s name value) else (-1, s)

/-- The sequential dispatch chain of dd_set_flag: try each module in order and
return at the first module that accepts; the new_dispatch fragment inserts
set_cbfc_flag before the final set_whrs_flag in exactly this pattern
(r = set_cbfc_flag(...); if r == 0 return 0; return set_whrs_flag(...)).
When every module declines, the failure code reaches the caller. -/
def dd_set_flag {σ : Type} (modules : List (FlagModule σ)) (s : σ) (name : String)
    (value : Int) : Int × σ :=
  match modules with
  | [] => (-1, s)
  | m :: rest =>
    let r := set_module_flag m s name value
    if r.1 = 0 then r else dd_set_flag rest s name value

/- ======================================================================
   tps_patch.py / tps_fix.py / phase8b_homography_audit.py: the camera
   calibration model, the TPS control-point builder with the midpoint-angle
   additions, and the precompute-at-init caching.
   ====================================================================== -/

/-- Ellipse parameters as parsed by parse_ellipse of phase8b (center x,
center y, width, height, rotation in degrees); machine doubles modelled as
rationals. -/
structure EllipseData where
  cx : Rat
  cy : Rat
  w : Rat
  h : Rat
  rot : Rat
  deriving DecidableEq, Repr

/-- TpsTransform of tps_fix.py lines 7-16: pixel control points, board control
points and the validity flag.  The fitted weights are not read by any claim
and the fitting code is not under src/, so they are omitted here. -/
structure TpsTransform where
  src_points : List (Rat × Rat)
  dst_points : List (Real × Real)
  valid : Bool

/-- CameraCalibration with the tps_cache field added by tps_patch.py step 1:
board center, the 20-entry segment boundary angle table, the segment-20
alignment index, the six named ring ellipses, and the precomputed transform. -/
structure CameraCalibration where
  center : Rat × Rat
  segment_angles : List Rat
  segment_20_index : Int
  outer_double_ellipse : Option EllipseData
  inner_double_ellipse : Option EllipseData
  outer_triple_ellipse : Option EllipseData
  inner_triple_ellipse : Option EllipseData
  bull_ellipse : Option EllipseData
  bullseye_ellipse : Option EllipseData
  tps_cache : TpsTransform

/-- The OpenCV double constant CV_PI used by the wrap-around test in
tps_patch.py new4/new5. -/
def CV_PI : Rat := 3.1415926535897932384626433832795

/-- The midpoint angle between two adjacent boundary angles with wrap-around
(tps_patch.py new4 lines 71-77: diff = a2 - a1, folded into [-CV_PI, CV_PI],
mid = a1 + diff / 2). -/
def midAngle (a1 a2 : Rat) : Rat :=
  let d1 := a2 - a1
  let d2 := if d1 > CV_PI then d1 - 2 * CV_PI else d1
  let d3 := if d2 < -CV_PI then d2 + 2 * CV_PI else d2
  a1 + d3 / 2

/-- board_idx = ((idx - seg20_idx) % 20 + 20) % 20 with C++ truncating %. -/
def board_idx (idx seg20_idx : Int) : Int :=
  Int.tmod (Int.tmod (idx - seg20_idx) 20 + 20) 20

/-- A destination control point: radius norm_r at angle deg measured
clockwise from the board top, so (norm_r sin, norm_r cos) of the angle in
radians (build_control_points lines 81-82; math.radians and std::sin / cos
modelled over the reals). -/
noncomputable def boardPointDeg (norm_r : Rat) (deg : Rat) : Real × Real :=
  ((norm_r : Real) * Real.sin ((deg : Real) * Real.pi / 180),
   (norm_r : Real) * Real.cos ((deg : Real) * Real.pi / 180))

/-- Boundary-angle control points of one ring (build_control_points lines
73-82 and the matching pre-patch ring loop of triangulation.cpp): sample the
ellipse at each of the 20 boundary angles; a failed sample is skipped; the
board point sits at board_idx * 18 - 9 degrees.  The ellipse sampler
(sample_ellipse_at_angle, a quadratic-root construction over doubles) is
passed in as a function. -/
noncomputable def ringBoundaryPoints (sample : EllipseData → Rat → Option (Rat × Rat))
    (angles : List Rat) (seg20_idx : Int) (ell : EllipseData) (norm_r : Rat) :
    List ((Rat × Rat) × (Real × Real)) :=
  (List.range 20).filterMap fun idx =>
    (sample ell (angles.getD idx 0)).map fun pt =>
      (pt, boardPointDeg norm_r (board_idx idx seg20_idx * 18 - 9))

/-- Midpoint-angle control points of one ring, added by tps_patch.py new4:
sample at the midpoint of boundary angles idx and (idx + 1) % 20; the board
point sits at the segment center board_idx * 18 degrees. -/
noncomputable def ringMidpointPoints (sample : EllipseData → Rat → Option (Rat × Rat))
    (angles : List Rat) (seg20_idx : Int) (ell : EllipseData) (norm_r : Rat) :
    List ((Rat × Rat) × (Real × Real)) :=
  (List.range 20).filterMap fun idx =>
    (sample ell (midAngle (angles.getD idx 0) (angles.getD ((idx + 1) % 20) 0))).map fun pt =>
      (pt, boardPointDeg norm_r (board_idx idx seg20_idx * 18))

/-- Mid-ring interpolated boundary-angle points (build_control_points lines
84-98): the average of the inner and outer ring samples at each boundary
angle, mapped to the averaged normalized radius. -/
noncomputable def midRingBoundaryPoints (sample : EllipseData → Rat → Option (Rat × Rat))
    (angles : List Rat) (seg20_idx : Int) (ei eo : EllipseData) (norm_r : Rat) :
    List ((Rat × Rat) × (Real × Real)) :=
  (List.range 20).filterMap fun idx =>
    match sample ei (angles.getD idx 0), sample eo (angles.getD idx 0) with
    | some pin, some pout =>
        some (((pin.1 + pout.1) / 2, (pin.2 + pout.2) / 2),
          boardPointDeg norm_r (board_idx idx seg20_idx * 18 - 9))
    | _, _ => none

/-- Mid-ring midpoint-angle points added by tps_patch.py new5: the averaged
inner / outer samples at the midpoint angles, mapped to segment centers. -/
noncomputable def midRingMidpointPoints (sample : EllipseData → Rat → Option (Rat × Rat))
    (angles : List Rat) (seg20_idx : Int) (ei eo : EllipseData) (norm_r : Rat) :
    List ((Rat × Rat) × (Real × Real)) :=
  (List.range 20).filterMap fun idx =>
    match sample ei (midAngle (angles.getD idx 0) (angles.getD ((idx + 1) % 20) 0)),
        sample eo (midAngle (angles.getD idx 0) (angles.getD ((idx + 1) % 20) 0)) with
    | some pin, some pout =>
        some (((pin.1 + pout.1) / 2, (pin.2 + pout.2) / 2),
          boardPointDeg norm_r (board_idx idx seg20_idx * 18))
    | _, _ => none

/-- The rings the builder walks, with their normalized radii (ring_configs of
build_control_points, reading the calibration's named ellipses). -/
def ringsOf (cal : CameraCalibration) : List (Option EllipseData × Rat) :=
  [(cal.outer_double_ellipse, 170.0 / 170.0), (cal.inner_double_ellipse, 162.0 / 170.0),
   (cal.outer_triple_ellipse, 107.0 / 170.0), (cal.inner_triple_ellipse, 99.0 / 170.0),
   (cal.bull_ellipse, 16.0 / 170.0), (cal.bullseye_ellipse, 6.35 / 170.0)]

/-- The two adjacent ring pairs used for mid-ring interpolation (mid_rings of
build_control_points lines 84-87). -/
def mid_ringsOf (cal : CameraCalibration) :
    List (Option EllipseData × Option EllipseData × Rat) :=
  [(cal.bull_ellipse, cal.inner_triple_ellipse, (16.0 + 99.0) / 2.0 / 170.0),
   (cal.outer_triple_ellipse, cal.inner_double_ellipse, (107.0 + 162.0) / 2.0 / 170.0)]

/-- Modelled from the spec: the minimum control-point count below which
build_transform falls back to an invalid transform (spec 4.1).  The numeric
constant lives in triangulation.cpp, which is not under src/; only its
existence matters to the claims. -/
def MIN_TPS_POINTS : Nat := 10

/-- build_tps_transform after the tps_patch.py edits: for every present ring
ellipse, the 20 boundary-angle samples and (new4) the 20 midpoint-angle
samples; then the mid-ring interpolated points of the two adjacent ring pairs
at boundary angles and (new5) at midpoint angles; then the board center
anchored at the origin.  A short angle table (build_control_points line 65) or
fewer than MIN_TPS_POINTS control points (fallback modelled from spec 4.1)
yields an invalid transform. -/
noncomputable def build_tps_transform (sample : EllipseData → Rat → Option (Rat × Rat))
    (cal : CameraCalibration) : TpsTransform :=
  if cal.segment_angles.length < 20 then
    { src_points := [], dst_points := [], valid := false }
  else
    let ringB := (ringsOf cal).flatMap fun rc =>
      match rc.1 with
      | none => []
      | some ell => ringBoundaryPoints sample cal.segment_angles cal.segment_20_index ell rc.2
    let ringM := (ringsOf cal).flatMap fun rc =>
      match rc.1 with
      | none => []
      | some ell => ringMidpointPoints sample cal.segment_angles cal.segment_20_index ell rc.2
    let midB := (mid_ringsOf cal).flatMap fun mr =>
      match mr.1, mr.2.1 with
      | some ei, some eo =>
          midRingBoundaryPoints sample cal.segment_angles cal.segment_20_index ei eo mr.2.2
      | _, _ => []
    let midM := (mid_ringsOf cal).flatMap fun mr =>
      match mr.1, mr.2.1 with
      | some ei, some eo =>
          midRingMidpointPoints sample cal.segment_angles cal.segment_20_index ei eo mr.2.2
      | _, _ => []
    let pts := ringB ++ ringM ++ midB ++ midM ++
      [((cal.center.1, cal.center.2), ((0 : Real), (0 : Real)))]
    { src_points := pts.map Prod.fst
      dst_points := pts.map Prod.snd
      valid := decide (MIN_TPS_POINTS ≤ pts.length) }

/-- dd_init after tps_patch.py new2: after parsing the calibrations (the input
here), precompute each camera's TPS transform once and cache it on the
calibration. -/
noncomputable def dd_init (sample : EllipseData → Rat → Option (Rat × Rat))
    (g_calibrations : List (String × CameraCalibration)) :
    List (String × CameraCalibration) :=
  g_calibrations.map fun p => (p.1, { p.2 with tps_cache := build_tps_transform sample p.2 })

/-- Association-list lookup (the std::map find on g_calibrations). -/
def lookupCal (cals : List (String × CameraCalibration)) (cam_id : String) :
    Option CameraCalibration :=
  match cals with
  | [] => none
  | p :: tl => if p.1 = cam_id then some p.2 else lookupCal tl cam_id

/-- The per-camera transform lookup on the per-detection path after
tps_patch.py new3: read the calibration's cached TPS transform by reference
and skip the camera when it is invalid.  No build call occurs here. -/
def detection_tps (cals : List (String × CameraCalibration)) (cam_id : String) :
    Option TpsTransform :=
  match lookupCal cals cam_id with
  | none => none
  | some cal => if cal.tps_cache.valid then some cal.tps_cache else none

/-- One throw of the detection pipeline as it touches the calibration store:
the cameras' cached transforms are read and the store is returned unchanged
(the patched triangulation.cpp writes nothing to g_calibrations and contains
no build_tps_transform call on this path). -/
def process_throw (cals : List (String × CameraCalibration)) (cams : List String) :
    List TpsTransform × List (String × CameraCalibration) :=
  (cams.filterMap (detection_tps cals), cals)

/- ======================================================================
   plot_warped_lines.py lines 95-101: scoring a board coordinate
   (machine doubles and numpy trigonometry modelled over the reals).
   ====================================================================== -/

/-- np.arctan2(y, x): the argument of x + y i, in (-pi, pi]. -/
noncomputable def atan2 (y x : Real) : Real := Complex.arg (x + y * Complex.I)

/-- The python float remainder x % m (sign of the divisor): x - m * floor(x / m). -/
noncomputable def realFmod (x m : Real) : Real := x - m * ⌊x / m⌋

/-- Lines 95-97 of plot_from_debug: angle_rad = arctan2(cy, -cx), converted to
degrees and shifted by 360 when negative. -/
noncomputable def scoreAngleDeg (cx cy : Real) : Real :=
  let angle_deg := atan2 cy (-cx) * 180 / Real.pi
  if angle_deg < 0 then angle_deg + 360 else angle_deg

/-- Lines 98-99: adjusted = (angle_deg - 90 + 9 + 360) % 360 and
seg_idx = int(adjusted / 18) % 20.  Python int() truncates toward zero, which
agrees with the floor because adjusted is nonnegative; the python % on
integers is the euclidean %. -/
noncomputable def scoreSegIdx (cx cy : Real) : Int :=
  let adjusted := realFmod (scoreAngleDeg cx cy - 90 + 9 + 360) 360
  ⌊adjusted / 18⌋ % 20

/-- Lines 100-101: the scored segment SEGMENT_ORDER[seg_idx]. -/
noncomputable def scoreSegment (cx cy : Real) : Nat :=
  SEGMENT_ORDER.getD (scoreSegIdx cx cy).toNat 0

/- ======================================================================
   Theorems.
   ====================================================================== -/

/-- foldl preserves any invariant preserved by its step function. -/
theorem foldl_preserves {α β : Type} (P : β → Prop) (step : β → α → β) :
    ∀ (l : List α) (init : β), P init → (∀ b a, P b → P (step b a)) →
      P (l.foldl step init) := by
  intro l
  induction l with
  | nil => intro init h _; exact h
  | cons a tl ih => intro init h hstep; exact ih _ (hstep _ _ h) hstep

theorem multVotes_add_le (cl : List (String × CamLineData)) {a b : Int} (hab : a ≠ b) :
    multVotes cl a + multVotes cl b ≤ cl.length := by
  induction cl with
  | nil => simp [multVotes]
  | cons c tl ih =>
    by_cases ha : c.2.vote.multiplier = a <;> by_cases hb : c.2.vote.multiplier = b
    · exact absurd (ha ▸ hb) hab
    · simp only [multVotes, List.filter_cons, beq_iff_eq, ha, hb] at *
      simp only [if_pos rfl, if_neg hb, List.length_cons, List.length]
      omega
    · simp only [multVotes, List.filter_cons, beq_iff_eq, ha, hb] at *
      simp only [if_neg ha, if_pos rfl, List.length_cons, List.length]
      omega
    · simp only [multVotes, List.filter_cons, beq_iff_eq, ha, hb] at *
      simp only [if_neg ha, if_neg hb, List.length_cons]
      omega

theorem majorityScan_eq_of_two (cl : List (String × CamLineData)) (m init : Int)
    (hm1 : 1 ≤ m) (hm3 : m ≤ 3) (h2 : 2 ≤ multVotes cl m) (hlen : cl.length ≤ 3) :
    majorityScan (multVotes cl) init = (m, multVotes cl m) := by
  have hother : ∀ m' : Int, m' ≠ m → multVotes cl m' ≤ 1 := by
    intro m' hne
    have h := multVotes_add_le cl hne
    omega
  interval_cases m
  · have hv2 := hother 2 (by omega)
    have hv3 := hother 3 (by omega)
    simp only [majorityScan, List.foldl]
    split_ifs <;> first | rfl | (exfalso; omega)
  · have hv1 := hother 1 (by omega)
    have hv3 := hother 3 (by omega)
    simp only [majorityScan, List.foldl]
    split_ifs <;> first | rfl | (exfalso; omega)
  · have hv1 := hother 1 (by omega)
    have hv2 := hother 2 (by omega)
    simp only [majorityScan, List.foldl]
    split_ifs <;> first | rfl | (exfalso; omega)

theorem majorityScan_snd_le (cl : List (String × CamLineData)) (init : Int)
    (hle : ∀ m : Int, 1 ≤ m → m ≤ 3 → multVotes cl m ≤ 1) :
    (majorityScan (multVotes cl) init).2 ≤ 1 := by
  have h1 := hle 1 (by omega) (by omega)
  have h2 := hle 2 (by omega) (by omega)
  have h3 := hle 3 (by omega) (by omega)
  simp only [majorityScan, List.foldl]
  split_ifs <;> omega

/-- C1: with at most three cameras, if some multiplier m in 1..3 receives at
least two camera votes and differs from the winning candidate multiplier, the
override replaces the multiplier with m and recomputes the score (segment 25:
50 when m = 2 and 25 otherwise; other segments: segment times m); if no
multiplier reaches two votes the result is returned unchanged. -/
theorem majority_vote_override_correct
    (r : IntersectionResult) (cam_lines : List (String × CamLineData))
    (hlen : cam_lines.length ≤ 3) :
    ((∀ m : Int, 1 ≤ m → m ≤ 3 → multVotes cam_lines m ≤ 1) →
        applyMultiplierOverride r cam_lines = r) ∧
    (∀ m : Int, 1 ≤ m → m ≤ 3 → 2 ≤ multVotes cam_lines m → m ≠ r.multiplier →
        (applyMultiplierOverride r cam_lines).multiplier = m ∧
        (applyMultiplierOverride r cam_lines).score =
          (if r.segment = 25 then (if m = 2 then (50 : Int) else 25)
           else r.segment * m)) := by
  constructor
  · intro hle
    have hsnd := majorityScan_snd_le cam_lines r.multiplier hle
    simp only [applyMultiplierOverride]
    exact if_neg (fun hcon => by omega)
  · intro m hm1 hm3 h2 hne
    have hscan := majorityScan_eq_of_two cam_lines m r.multiplier hm1 hm3 h2 hlen
    simp only [applyMultiplierOverride]
    rw [hscan]
    rw [if_pos ⟨h2, hne⟩]
    exact ⟨rfl, by simp [recomputeScore]⟩

/-- Witness for C1 at a concrete input: three cameras, two voting multiplier 3,
winning candidate multiplier 1 on segment 19; the override yields multiplier 3
and score 57. -/
theorem majority_vote_override_correct_witness :
    (applyMultiplierOverride
        { segment := 19, multiplier := 1, score := 19, method := "triangulated",
          confidence := 1, coords := (0, 0), total_error := 0, per_camera := [] }
        [("cam0", { vote := { segment := 19, multiplier := 3 } }),
         ("cam1", { vote := { segment := 19, multiplier := 3 } }),
         ("cam2", { vote := { segment := 19, multiplier := 1 } })]).multiplier = 3 ∧
    (applyMultiplierOverride
        { segment := 19, multiplier := 1, score := 19, method := "triangulated",
          confidence := 1, coords := (0, 0), total_error := 0, per_camera := [] }
        [("cam0", { vote := { segment := 19, multiplier := 3 } }),
         ("cam1", { vote := { segment := 19, multiplier := 3 } }),
         ("cam2", { vote := { segment := 19, multiplier := 1 } })]).score = 57 := by
  have h := (majority_vote_override_correct
      { segment := 19, multiplier := 1, score := 19, method := "triangulated",
        confidence := 1, coords := (0, 0), total_error := 0, per_camera := [] }
      [("cam0", { vote := { segment := 19, multiplier := 3 } }),
       ("cam1", { vote := { segment := 19, multiplier := 3 } }),
       ("cam2", { vote := { segment := 19, multiplier := 1 } })]
      (by decide)).2 3 (by decide) (by decide) (by decide) (by decide)
  refine ⟨h.1, ?_⟩
  rw [h.2]
  decide

/-- C10: the override block mutates only the multiplier and score fields; for
every input the segment, method, confidence, coordinates, total_error and
per-camera vote map of the returned result equal their values before the
override block, whether or not the override fires. -/
theorem override_mutates_only_multiplier_and_score
    (r : IntersectionResult) (cam_lines : List (String × CamLineData)) :
    (applyMultiplierOverride r cam_lines).segment = r.segment ∧
    (applyMultiplierOverride r cam_lines).method = r.method ∧
    (applyMultiplierOverride r cam_lines).confidence = r.confidence ∧
    (applyMultiplierOverride r cam_lines).coords = r.coords ∧
    (applyMultiplierOverride r cam_lines).total_error = r.total_error ∧
    (applyMultiplierOverride r cam_lines).per_camera = r.per_camera := by
  simp only [applyMultiplierOverride]
  split <;> simp

/-- C4: the normalized ring boundary constants are the standard-board fractions
6.35/170, 16/170, 99/170, 107/170, 162/170 and 170/170 of the board radius;
the two independent tables (NORM_RINGS and the audit ring_configs) agree, and
the fractions match the illustrative decimal values of the specification. -/
theorem ring_boundary_constants :
    NORM_RINGS = [("bullseye", (127 : Rat) / 3400), ("bull", 8 / 85),
      ("triple_inner", 99 / 170), ("triple_outer", 107 / 170),
      ("double_inner", 81 / 85), ("double_outer", 1)] ∧
    ring_configs = [("outer_double_ellipse", (1 : Rat)), ("inner_double_ellipse", 81 / 85),
      ("outer_triple_ellipse", 107 / 170), ("inner_triple_ellipse", 99 / 170),
      ("bull_ellipse", 8 / 85), ("bullseye_ellipse", 127 / 3400)] ∧
    |(127 / 3400 : Rat) - 0.037| < 1 / 2000 ∧
    |(8 / 85 : Rat) - 0.094| < 1 / 2000 ∧
    |(99 / 170 : Rat) - 0.582| < 1 / 1000 ∧
    |(107 / 170 : Rat) - 0.629| < 1 / 1000 ∧
    |(81 / 85 : Rat) - 0.953| < 1 / 1000 := by
  refine ⟨?_, ?_, ?_, ?_, ?_, ?_, ?_⟩
  · norm_num [NORM_RINGS]
  · norm_num [ring_configs]
  all_goals rw [abs_lt]; constructor <;> norm_num

theorem optimizeDim_monotone (f : (WName → Rat) → Nat) (s : OptState) (wname : WName) :
    s.best_correct ≤ (optimizeDim f s wname).best_correct := by
  have hstep : ∀ (b : Nat × Rat) (a : Rat), s.best_correct ≤ b.1 →
      s.best_correct ≤ (tryMult f s.best_weights wname (s.best_weights wname) b a).1 := by
    intro b a hb
    simp only [tryMult]
    split_ifs <;> simp_all <;> omega
  have h := foldl_preserves (fun acc : Nat × Rat => s.best_correct ≤ acc.1)
    (tryMult f s.best_weights wname (s.best_weights wname)) search_multipliers
    (s.best_correct, s.best_weights wname) (le_refl _) hstep
  simp only [optimizeDim]
  split_ifs with hc
  · exact h
  · exact le_refl _

theorem optimizeDim_strict (f : (WName → Rat) → Nat) (s : OptState) (wname : WName) :
    (optimizeDim f s wname).best_weights ≠ s.best_weights →
    s.best_correct < (optimizeDim f s wname).best_correct := by
  have hstep : ∀ (b : Nat × Rat) (a : Rat),
      (b = (s.best_correct, s.best_weights wname) ∨ s.best_correct < b.1) →
      (tryMult f s.best_weights wname (s.best_weights wname) b a =
          (s.best_correct, s.best_weights wname) ∨
        s.best_correct < (tryMult f s.best_weights wname (s.best_weights wname) b a).1) := by
    intro b a hb
    simp only [tryMult]
    split_ifs with h1 h2
    · exact hb
    · right
      rcases hb with h | h
      · rw [h] at h2
        exact h2
      · exact lt_trans h h2
    · exact hb
  have h := foldl_preserves
    (fun acc : Nat × Rat =>
      acc = (s.best_correct, s.best_weights wname) ∨ s.best_correct < acc.1)
    (tryMult f s.best_weights wname (s.best_weights wname)) search_multipliers
    (s.best_correct, s.best_weights wname) (Or.inl rfl) hstep
  intro hne
  simp only [optimizeDim] at hne ⊢
  split_ifs at hne ⊢ with hc
  · rcases h with heq | hlt
    · exact absurd (congrArg Prod.snd heq) hc
    · exact hlt
  · exact absurd rfl hne

theorem optimizeDim_invariant (f : (WName → Rat) → Nat) (s : OptState) (wname : WName)
    (hinv : s.best_correct = f s.best_weights) :
    (optimizeDim f s wname).best_correct = f (optimizeDim f s wname).best_weights := by
  have hstep : ∀ (b : Nat × Rat) (a : Rat),
      b.1 = f (Function.update s.best_weights wname b.2) →
      (tryMult f s.best_weights wname (s.best_weights wname) b a).1 =
        f (Function.update s.best_weights wname
            (tryMult f s.best_weights wname (s.best_weights wname) b a).2) := by
    intro b a hb
    simp only [tryMult]
    split_ifs with h1 h2
    · exact hb
    · rfl
    · exact hb
  have hinit : (s.best_correct, s.best_weights wname).1 =
      f (Function.update s.best_weights wname (s.best_correct, s.best_weights wname).2) := by
    show s.best_correct = f (Function.update s.best_weights wname (s.best_weights wname))
    rw [Function.update_eq_self]
    exact hinv
  have h := foldl_preserves
    (fun acc : Nat × Rat => acc.1 = f (Function.update s.best_weights wname acc.2))
    (tryMult f s.best_weights wname (s.best_weights wname)) search_multipliers
    (s.best_correct, s.best_weights wname) hinit hstep
  simp only [optimizeDim]
  split_ifs with hc
  · exact h
  · exact hinv

/-- C9: with the replay correct-count a deterministic function f of the
weights, the coordinate descent of optimize_whrs.py is monotone: each dimension
step never lowers the best correct-count, it changes the weights only when the
trial strictly exceeded the current best, the final best_correct equals the
replay count at the final weights, and the optimized weights replay at least as
many correct darts as the Phase 26 defaults. -/
theorem whrs_coordinate_descent_monotone (f : (WName → Rat) → Nat) :
    (∀ (s : OptState) (wname : WName),
        s.best_correct ≤ (optimizeDim f s wname).best_correct) ∧
    (∀ (s : OptState) (wname : WName),
        (optimizeDim f s wname).best_weights ≠ s.best_weights →
        s.best_correct < (optimizeDim f s wname).best_correct) ∧
    (optimize_whrs f).best_correct = f (optimize_whrs f).best_weights ∧
    f whrsDefaults ≤ f (optimize_whrs f).best_weights := by
  have key : (optimize_whrs f).best_correct = f (optimize_whrs f).best_weights ∧
      f whrsDefaults ≤ (optimize_whrs f).best_correct := by
    unfold optimize_whrs
    apply foldl_preserves (fun t : OptState =>
      t.best_correct = f t.best_weights ∧ f whrsDefaults ≤ t.best_correct)
    · exact ⟨rfl, le_refl _⟩
    · intro t a ht
      unfold optimizeRound
      apply foldl_preserves (fun u : OptState =>
        u.best_correct = f u.best_weights ∧ f whrsDefaults ≤ u.best_correct)
        (optimizeDim f) weight_names t ht
      intro u wname hu
      exact ⟨optimizeDim_invariant f u wname hu.1,
        le_trans hu.2 (optimizeDim_monotone f u wname)⟩
  exact ⟨optimizeDim_monotone f, optimizeDim_strict f, key.1, key.1 ▸ key.2⟩

/-- Witness for C9: a concrete replay function under which the first dimension
step adopts 0.15 for wR (strictly better replay count), so the strict-adoption
clause fires at a concrete input. -/
theorem whrs_coordinate_descent_monotone_witness :
    (OptState.mk whrsDefaults 0).best_correct <
      (optimizeDim (fun w => if w WName.wR < 0.2 then 1 else 0)
        (OptState.mk whrsDefaults 0) WName.wR).best_correct := by
  have hne : (optimizeDim (fun w => if w WName.wR < 0.2 then 1 else 0)
      (OptState.mk whrsDefaults 0) WName.wR).best_weights ≠
      (OptState.mk whrsDefaults 0).best_weights := by
    intro h
    have h2 := congrFun h WName.wR
    norm_num [optimizeDim, tryMult, search_multipliers, whrsDefaults, List.foldl,
      Function.update_same] at h2
  exact (whrs_coordinate_descent_monotone
    (fun w => if w WName.wR < 0.2 then 1 else 0)).2.1
    (OptState.mk whrsDefaults 0) WName.wR hne

/-- C7: when the detector reports no usable tips (null result, null tip list,
or empty tip list), the endpoint answers success with a recorded miss dart —
segment 0, multiplier 0, score 0, zone miss — pushed through the normal dart
pipeline (x01 engine or manual game service), not an error. -/
theorem no_detection_yields_miss {α γ : Type}
    (detectResult : Option (DetectResult α)) (dartsThisTurn : List DartThrow)
    (game : Game γ) (processDart applyManualDart : Game γ → DartThrow → Game γ)
    (h : noUsableTips detectResult = true) :
    detectEndpointHead detectResult dartsThisTurn game processDart applyManualDart =
      some (recordMiss dartsThisTurn game processDart applyManualDart) ∧
    (recordMiss dartsThisTurn game processDart applyManualDart).ok = true ∧
    (recordMiss dartsThisTurn game processDart applyManualDart).message = "Miss recorded" ∧
    (recordMiss dartsThisTurn game processDart applyManualDart).recorded =
      some (missDartOf dartsThisTurn) ∧
    (missDartOf dartsThisTurn).segment = 0 ∧
    (missDartOf dartsThisTurn).multiplier = 0 ∧
    (missDartOf dartsThisTurn).score = 0 ∧
    (missDartOf dartsThisTurn).zone = "miss" ∧
    (recordMiss dartsThisTurn game processDart applyManualDart).darts =
      [("miss", 0, 0, 0)] ∧
    (recordMiss dartsThisTurn game processDart applyManualDart).game =
      (if game.isX01Engine then processDart game (missDartOf dartsThisTurn)
       else applyManualDart game (missDartOf dartsThisTurn)) := by
  refine ⟨?_, rfl, rfl, rfl, rfl, rfl, rfl, rfl, rfl, rfl⟩
  simp [detectEndpointHead, h]

/-- Witness for C7 at a concrete input: a null detector result on an x01 game
yields the success response of the miss branch with the miss dart recorded. -/
theorem no_detection_yields_miss_witness :
    detectEndpointHead (none : Option (DetectResult Unit)) [] (Game.mk true ())
        (fun g _ => g) (fun g _ => g) =
      some (recordMiss [] (Game.mk true ()) (fun g _ => g) (fun g _ => g)) ∧
    (recordMiss [] (Game.mk true ()) (fun g _ => g) (fun g _ => g)).ok = true ∧
    (missDartOf []).segment = 0 ∧ (missDartOf []).zone = "miss" := by
  have h := no_detection_yields_miss (none : Option (DetectResult Unit)) []
    (Game.mk true ()) (fun g _ => g) (fun g _ => g) rfl
  exact ⟨h.1, h.2.1, h.2.2.2.2.1, h.2.2.2.2.2.2.2.1⟩

theorem cbfc_learn_fold (conflict : CbfcObservation → Bool) :
    ∀ (cands : List HhsCandidateExport) (log : List CbfcObservation),
      cands.foldl (learnLogStep conflict) log =
        log ++ (cands.filter (fun c =>
          (c.type.take 7 == "single_") && !conflict (obsOfCandidate c))).map
            obsOfCandidate := by
  intro cands
  induction cands with
  | nil => intro log; simp
  | cons c tl ih =>
    intro log
    rw [List.foldl_cons]
    by_cases hs : c.type.take 7 = "single_"
    · by_cases hc : conflict (obsOfCandidate c) = true
      · rw [show learnLogStep conflict log c = log from by
          simp [learnLogStep, cbfc_log_single_cam_projection, hs, hc]]
        rw [ih log]
        simp [List.filter_cons, hs, hc]
      · simp only [Bool.not_eq_true] at hc
        rw [show learnLogStep conflict log c = log ++ [obsOfCandidate c] from by
          simp [learnLogStep, cbfc_log_single_cam_projection, hs, hc]]
        rw [ih (log ++ [obsOfCandidate c])]
        simp [List.filter_cons, hs, hc]
    · rw [show learnLogStep conflict log c = log from by simp [learnLogStep, hs]]
      rw [ih log]
      simp [List.filter_cons, hs]

/-- C6: with CBFC enabled, Learn mode (mode 1) appends one observation exactly
for each candidate whose type carries the single-camera tag and which lacks
conflicting multi-camera evidence — candidates of any other type are never
logged — and leaves the candidate list untouched; Apply mode (mode 2) passes
the candidates through cbfc_correct_candidates before WHRS scores them and
logs nothing. -/
theorem cbfc_learn_apply_wiring {ρ : Type} (conflict : CbfcObservation → Bool)
    (cbfc_correct_candidates : List HhsCandidateExport → List HhsCandidateExport)
    (whrs_select : List HhsCandidateExport → ρ)
    (cands : List HhsCandidateExport) (log : List CbfcObservation) :
    (cbfcStep true 1 conflict cbfc_correct_candidates cands log).2 =
      log ++ (cands.filter (fun c =>
        (c.type.take 7 == "single_") && !conflict (obsOfCandidate c))).map
          obsOfCandidate ∧
    (cbfcStep true 1 conflict cbfc_correct_candidates cands log).1 = cands ∧
    cbfcThenWhrs true 2 conflict cbfc_correct_candidates whrs_select cands log =
      (whrs_select (cbfc_correct_candidates cands), log) := by
  refine ⟨?_, ?_, ?_⟩
  · simpa [cbfcStep] using cbfc_learn_fold conflict cands log
  · simp [cbfcStep]
  · simp [cbfcThenWhrs, cbfcStep]

theorem dd_set_flag_all_decline {σ : Type} (s : σ) (name : String) (value : Int) :
    ∀ (modules : List (FlagModule σ)),
      (∀ m ∈ modules, m.recognizes name = false) →
      dd_set_flag modules s name value = (-1, s) := by
  intro modules
  induction modules with
  | nil => intro _; rfl
  | cons m rest ih =>
    intro hall
    have hm : m.recognizes name = false := hall m (List.mem_cons_self m rest)
    simp only [dd_set_flag, set_module_flag, hm]
    norm_num
    exact ih fun u hu => hall u (List.mem_cons_of_mem m hu)

theorem dd_set_flag_first_accepts {σ : Type} (s : σ) (name : String) (value : Int)
    (m : FlagModule σ) (back : List (FlagModule σ)) :
    ∀ (front : List (FlagModule σ)),
      (∀ u ∈ front, u.recognizes name = false) → m.recognizes name = true →
      dd_set_flag (front ++ m :: back) s name value = (0, m.store s name value) := by
  intro front
  induction front with
  | nil =>
    intro _ hm
    simp [dd_set_flag, set_module_flag, hm]
  | cons u ut ih =>
    intro hall hm
    have hu : u.recognizes name = false := hall u (List.mem_cons_self u ut)
    simp only [List.cons_append, dd_set_flag, set_module_flag, hu]
    norm_num
    exact ih (fun v hv => hall v (List.mem_cons_of_mem u hv)) hm

/-- C8: in the sequential flag dispatch, a name recognized by some module is
handled by the first (hence exactly one) module that recognizes it and returns
success 0 with only that module's store applied; a name no module recognizes
falls through the whole chain, returns the failure code -1 and leaves the flag
state — and therefore the outcome of any detection run on that state —
untouched. -/
theorem set_flag_dispatch {σ θ : Type} (modules : List (FlagModule σ)) (s : σ)
    (name : String) (value : Int) (detect : σ → θ) :
    ((∀ m ∈ modules, m.recognizes name = false) →
        dd_set_flag modules s name value = (-1, s) ∧
        detect (dd_set_flag modules s name value).2 = detect s) ∧
    (∀ (front : List (FlagModule σ)) (m : FlagModule σ) (back : List (FlagModule σ)),
        modules = front ++ m :: back →
        (∀ u ∈ front, u.recognizes name = false) →
        m.recognizes name = true →
        dd_set_flag modules s name value = (0, m.store s name value)) := by
  constructor
  · intro hall
    have h := dd_set_flag_all_decline s name value modules hall
    exact ⟨h, by rw [h]⟩
  · intro front m back hsplit hfront hm
    rw [hsplit]
    exact dd_set_flag_first_accepts s name value m back front hfront hm

/-- Witness for C8 at a concrete input: with a cbfc-like module followed by a
whrs-like module over an (Int, Int) flag state, the name recognized only by the
second module is stored by it and dispatch returns 0. -/
theorem set_flag_dispatch_witness :
    dd_set_flag
      [FlagModule.mk (fun n => n == "CBFC_MODE") (fun st _ v => (v, st.2)),
       FlagModule.mk (fun n => n == "UseWHRS") (fun st _ v => (st.1, v))]
      ((0, 0) : Int × Int) "UseWHRS" 1 = (0, (0, 1)) := by
  have h := (set_flag_dispatch
      [FlagModule.mk (fun n => n == "CBFC_MODE") (fun st _ v => (v, st.2)),
       FlagModule.mk (fun n => n == "UseWHRS") (fun st _ v => (st.1, v))]
      ((0, 0) : Int × Int) "UseWHRS" 1 id).2
      [FlagModule.mk (fun n => n == "CBFC_MODE") (fun st _ v => (v, st.2))]
      (FlagModule.mk (fun n => n == "UseWHRS") (fun st _ v => (st.1, v))) []
      rfl (by intro u hu; simp at hu; subst hu; rfl) rfl
  exact h

theorem lookupCal_dd_init (sample : EllipseData → Rat → Option (Rat × Rat)) :
    ∀ (cals : List (String × CameraCalibration)) (cid : String) (cal : CameraCalibration),
      lookupCal cals cid = some cal →
      lookupCal (dd_init sample cals) cid =
        some { cal with tps_cache := build_tps_transform sample cal } := by
  intro cals
  induction cals with
  | nil => intro cid cal h; simp [lookupCal] at h
  | cons p tl ih =>
    intro cid cal h
    simp only [lookupCal] at h
    simp only [dd_init, List.map_cons, lookupCal]
    by_cases hc : p.1 = cid
    · rw [if_pos hc] at h
      rw [if_pos hc]
      cases h
      rfl
    · rw [if_neg hc] at h
      rw [if_neg hc]
      exact ih cid cal h

theorem throws_leave_store :
    ∀ (throws : List (List String)) (s : List (String × CameraCalibration)),
      throws.foldl (fun st inp => (process_throw st inp).2) s = s := by
  intro throws
  induction throws with
  | nil => intro s; rfl
  | cons t ts ih => intro s; exact ih s

/-- C2: dd_init builds each camera's pixel-to-board transform exactly once and
caches it on the calibration; any sequence of detection throws leaves the
calibration store exactly as dd_init produced it; and the per-throw transform
lookup of a calibrated camera returns precisely the transform built at init
(or skips the camera when that transform is invalid) — no per-detection path
rebuilds it. -/
theorem transform_built_once_and_cached (sample : EllipseData → Rat → Option (Rat × Rat))
    (cals0 : List (String × CameraCalibration)) (throws : List (List String)) :
    (∀ (cid : String) (cal : CameraCalibration), lookupCal cals0 cid = some cal →
        lookupCal (dd_init sample cals0) cid =
          some { cal with tps_cache := build_tps_transform sample cal }) ∧
    throws.foldl (fun st inp => (process_throw st inp).2) (dd_init sample cals0) =
      dd_init sample cals0 ∧
    (∀ (cid : String) (cal : CameraCalibration), lookupCal cals0 cid = some cal →
        detection_tps (dd_init sample cals0) cid =
          (if (build_tps_transform sample cal).valid then
            some (build_tps_transform sample cal) else none)) := by
  refine ⟨fun cid cal h => lookupCal_dd_init sample cals0 cid cal h,
    throws_leave_store throws (dd_init sample cals0), fun cid cal h => ?_⟩
  simp [detection_tps, lookupCal_dd_init sample cals0 cid cal h]

/-- Witness for C2 at a concrete input: a one-camera store; after dd_init the
lookup of cam0 yields the calibration with the transform built at init. -/
theorem transform_built_once_and_cached_witness :
    lookupCal
      (dd_init (fun _ _ => none)
        [("cam0",
          { center := (0, 0), segment_angles := [], segment_20_index := 0,
            outer_double_ellipse := none, inner_double_ellipse := none,
            outer_triple_ellipse := none, inner_triple_ellipse := none,
            bull_ellipse := none, bullseye_ellipse := none,
            tps_cache := { src_points := [], dst_points := [], valid := false } })])
      "cam0" =
      some { center := (0, 0), segment_angles := [], segment_20_index := 0,
             outer_double_ellipse := none, inner_double_ellipse := none,
             outer_triple_ellipse := none, inner_triple_ellipse := none,
             bull_ellipse := none, bullseye_ellipse := none,
             tps_cache := build_tps_transform (fun _ _ => none)
               { center := (0, 0), segment_angles := [], segment_20_index := 0,
                 outer_double_ellipse := none, inner_double_ellipse := none,
                 outer_triple_ellipse := none, inner_triple_ellipse := none,
                 bull_ellipse := none, bullseye_ellipse := none,
                 tps_cache := { src_points := [], dst_points := [], valid := false } } } := by
  exact (transform_built_once_and_cached (fun _ _ => none)
    [("cam0",
      { center := (0, 0), segment_angles := [], segment_20_index := 0,
        outer_double_ellipse := none, inner_double_ellipse := none,
        outer_triple_ellipse := none, inner_triple_ellipse := none,
        bull_ellipse := none, bullseye_ellipse := none,
        tps_cache := { src_points := [], dst_points := [], valid := false } })]
    []).1 "cam0"
    { center := (0, 0), segment_angles := [], segment_20_index := 0,
      outer_double_ellipse := none, inner_double_ellipse := none,
      outer_triple_ellipse := none, inner_triple_ellipse := none,
      bull_ellipse := none, bullseye_ellipse := none,
      tps_cache := { src_points := [], dst_points := [], valid := false } }
    (by simp [lookupCal])

theorem length_filterMap_of_isSome {α β : Type} (f : α → Option β) :
    ∀ l : List α, (∀ a ∈ l, (f a).isSome) → (l.filterMap f).length = l.length := by
  intro l
  induction l with
  | nil => intro _; rfl
  | cons a tl ih =>
    intro h
    obtain ⟨b, hb⟩ := Option.isSome_iff_exists.mp (h a (List.mem_cons_self a tl))
    simp [List.filterMap_cons, hb, ih fun x hx => h x (List.mem_cons_of_mem a hx)]

theorem ringBoundaryPoints_length (sample : EllipseData → Rat → Option (Rat × Rat))
    (angles : List Rat) (s20 : Int) (ell : EllipseData) (r : Rat)
    (h : ∀ e a, (sample e a).isSome) :
    (ringBoundaryPoints sample angles s20 ell r).length = 20 := by
  simp only [ringBoundaryPoints]
  rw [length_filterMap_of_isSome, List.length_range]
  intro idx _
  obtain ⟨b, hb⟩ := Option.isSome_iff_exists.mp (h ell (angles.getD idx 0))
  simp only [hb, Option.map_some', Option.isSome_some]

theorem ringMidpointPoints_length (sample : EllipseData → Rat → Option (Rat × Rat))
    (angles : List Rat) (s20 : Int) (ell : EllipseData) (r : Rat)
    (h : ∀ e a, (sample e a).isSome) :
    (ringMidpointPoints sample angles s20 ell r).length = 20 := by
  simp only [ringMidpointPoints]
  rw [length_filterMap_of_isSome, List.length_range]
  intro idx _
  obtain ⟨b, hb⟩ := Option.isSome_iff_exists.mp
    (h ell (midAngle (angles.getD idx 0) (angles.getD ((idx + 1) % 20) 0)))
  simp only [hb, Option.map_some', Option.isSome_some]

theorem midRingBoundaryPoints_length (sample : EllipseData → Rat → Option (Rat × Rat))
    (angles : List Rat) (s20 : Int) (ei eo : EllipseData) (r : Rat)
    (h : ∀ e a, (sample e a).isSome) :
    (midRingBoundaryPoints sample angles s20 ei eo r).length = 20 := by
  simp only [midRingBoundaryPoints]
  rw [length_filterMap_of_isSome, List.length_range]
  intro idx _
  obtain ⟨b1, hb1⟩ := Option.isSome_iff_exists.mp (h ei (angles.getD idx 0))
  obtain ⟨b2, hb2⟩ := Option.isSome_iff_exists.mp (h eo (angles.getD idx 0))
  simp only [hb1, hb2, Option.isSome_some]

theorem midRingMidpointPoints_length (sample : EllipseData → Rat → Option (Rat × Rat))
    (angles : List Rat) (s20 : Int) (ei eo : EllipseData) (r : Rat)
    (h : ∀ e a, (sample e a).isSome) :
    (midRingMidpointPoints sample angles s20 ei eo r).length = 20 := by
  simp only [midRingMidpointPoints]
  rw [length_filterMap_of_isSome, List.length_range]
  intro idx _
  obtain ⟨b1, hb1⟩ := Option.isSome_iff_exists.mp
    (h ei (midAngle (angles.getD idx 0) (angles.getD ((idx + 1) % 20) 0)))
  obtain ⟨b2, hb2⟩ := Option.isSome_iff_exists.mp
    (h eo (midAngle (angles.getD idx 0) (angles.getD ((idx + 1) % 20) 0)))
  simp only [hb1, hb2, Option.isSome_some]

theorem build_tps_invalid_below_min (sample : EllipseData → Rat → Option (Rat × Rat))
    (cal : CameraCalibration)
    (h : (build_tps_transform sample cal).src_points.length < MIN_TPS_POINTS) :
    (build_tps_transform sample cal).valid = false := by
  by_cases hl : cal.segment_angles.length < 20
  · simp [build_tps_transform, hl]
  · simp only [build_tps_transform, if_neg hl] at h ⊢
    rw [List.length_map] at h
    simp only [decide_eq_false_iff_not]
    omega

/-- C5: with a full calibration (20-entry angle table, all six ring ellipses)
and total sampling, build_tps_transform collects 20 boundary-angle and 20
midpoint-angle samples per ring (40 per ring), 40 mid-ring interpolated points
per adjacent ring pair, and the board center as a control point — 321 points
in total, with the center anchored at the board origin — and any transform
with fewer than the minimum number of control points is invalid. -/
theorem build_transform_control_points (sample : EllipseData → Rat → Option (Rat × Rat))
    (cal : CameraCalibration)
    (hlen : cal.segment_angles.length = 20)
    (hod : cal.outer_double_ellipse.isSome) (hid : cal.inner_double_ellipse.isSome)
    (hot : cal.outer_triple_ellipse.isSome) (hit : cal.inner_triple_ellipse.isSome)
    (hbl : cal.bull_ellipse.isSome) (hbe : cal.bullseye_ellipse.isSome)
    (h : ∀ e a, (sample e a).isSome) :
    (build_tps_transform sample cal).src_points.length = 321 ∧
    (build_tps_transform sample cal).dst_points.length = 321 ∧
    (∀ ell r, (ringBoundaryPoints sample cal.segment_angles cal.segment_20_index ell r).length = 20 ∧
        (ringMidpointPoints sample cal.segment_angles cal.segment_20_index ell r).length = 20) ∧
    (∀ ei eo r,
        (midRingBoundaryPoints sample cal.segment_angles cal.segment_20_index ei eo r).length = 20 ∧
        (midRingMidpointPoints sample cal.segment_angles cal.segment_20_index ei eo r).length = 20) ∧
    (cal.center.1, cal.center.2) ∈ (build_tps_transform sample cal).src_points ∧
    (((0 : Real), (0 : Real))) ∈ (build_tps_transform sample cal).dst_points ∧
    (build_tps_transform sample cal).valid = true ∧
    (∀ (g : EllipseData → Rat → Option (Rat × Rat)) (c : CameraCalibration),
        (build_tps_transform g c).src_points.length < MIN_TPS_POINTS →
        (build_tps_transform g c).valid = false) := by
  obtain ⟨e1, he1⟩ := Option.isSome_iff_exists.mp hod
  obtain ⟨e2, he2⟩ := Option.isSome_iff_exists.mp hid
  obtain ⟨e3, he3⟩ := Option.isSome_iff_exists.mp hot
  obtain ⟨e4, he4⟩ := Option.isSome_iff_exists.mp hit
  obtain ⟨e5, he5⟩ := Option.isSome_iff_exists.mp hbl
  obtain ⟨e6, he6⟩ := Option.isSome_iff_exists.mp hbe
  have hnl : ¬ cal.segment_angles.length < 20 := by omega
  have lB : ∀ ell r,
      (ringBoundaryPoints sample cal.segment_angles cal.segment_20_index ell r).length = 20 :=
    fun ell r => ringBoundaryPoints_length sample cal.segment_angles cal.segment_20_index ell r h
  have lM : ∀ ell r,
      (ringMidpointPoints sample cal.segment_angles cal.segment_20_index ell r).length = 20 :=
    fun ell r => ringMidpointPoints_length sample cal.segment_angles cal.segment_20_index ell r h
  have lMB : ∀ ei eo r,
      (midRingBoundaryPoints sample cal.segment_angles cal.segment_20_index ei eo r).length = 20 :=
    fun ei eo r => midRingBoundaryPoints_length sample cal.segment_angles cal.segment_20_index ei eo r h
  have lMM : ∀ ei eo r,
      (midRingMidpointPoints sample cal.segment_angles cal.segment_20_index ei eo r).length = 20 :=
    fun ei eo r => midRingMidpointPoints_length sample cal.segment_angles cal.segment_20_index ei eo r h
  have hlen321 : (build_tps_transform sample cal).src_points.length = 321 ∧
      (build_tps_transform sample cal).dst_points.length = 321 := by
    constructor <;>
    · simp only [build_tps_transform, if_neg hnl, ringsOf, mid_ringsOf, he1, he2, he3, he4,
        he5, he6, List.flatMap_cons, List.flatMap_nil, List.append_nil, List.length_map,
        List.length_append, List.length_cons, List.length_nil, lB, lM, lMB, lMM]
  refine ⟨hlen321.1, hlen321.2, fun ell r => ⟨lB ell r, lM ell r⟩,
    fun ei eo r => ⟨lMB ei eo r, lMM ei eo r⟩, ?_, ?_, ?_,
    fun g c hlt => build_tps_invalid_below_min g c hlt⟩
  · simp only [build_tps_transform, if_neg hnl]
    exact List.mem_map_of_mem Prod.fst
      (show ((cal.center.1, cal.center.2), ((0 : Real), (0 : Real))) ∈ _ from by simp)
  · simp only [build_tps_transform, if_neg hnl]
    exact List.mem_map_of_mem Prod.snd
      (show ((cal.center.1, cal.center.2), ((0 : Real), (0 : Real))) ∈ _ from by simp)
  · simp only [build_tps_transform, if_neg hnl]
    rw [decide_eq_true_eq]
    rw [List.length_append, List.length_append, List.length_append, List.length_append]
    simp only [ringsOf, mid_ringsOf, he1, he2, he3, he4, he5, he6, List.flatMap_cons,
      List.flatMap_nil, List.append_nil, List.length_append, List.length_cons,
      List.length_nil, lB, lM, lMB, lMM, MIN_TPS_POINTS]
    omega

/-- Witness for C5 at a concrete input: a full calibration with all six rings
and a total sampler yields 321 control points and a valid transform. -/
theorem build_transform_control_points_witness :
    (build_tps_transform (fun _ _ => some (0, 0))
      { center := (0, 0),
        segment_angles := [0, 1, 2, 3, 4, 5, 6, 7, 8, 9, 10, 11, 12, 13, 14, 15, 16, 17, 18, 19],
        segment_20_index := 0,
        outer_double_ellipse := some { cx := 0, cy := 0, w := 1, h := 1, rot := 0 },
        inner_double_ellipse := some { cx := 0, cy := 0, w := 1, h := 1, rot := 0 },
        outer_triple_ellipse := some { cx := 0, cy := 0, w := 1, h := 1, rot := 0 },
        inner_triple_ellipse := some { cx := 0, cy := 0, w := 1, h := 1, rot := 0 },
        bull_ellipse := some { cx := 0, cy := 0, w := 1, h := 1, rot := 0 },
        bullseye_ellipse := some { cx := 0, cy := 0, w := 1, h := 1, rot := 0 },
        tps_cache := { src_points := [], dst_points := [], valid := false } }).src_points.length
      = 321 ∧
    (build_tps_transform (fun _ _ => some (0, 0))
      { center := (0, 0),
        segment_angles := [0, 1, 2, 3, 4, 5, 6, 7, 8, 9, 10, 11, 12, 13, 14, 15, 16, 17, 18, 19],
        segment_20_index := 0,
        outer_double_ellipse := some { cx := 0, cy := 0, w := 1, h := 1, rot := 0 },
        inner_double_ellipse := some { cx := 0, cy := 0, w := 1, h := 1, rot := 0 },
        outer_triple_ellipse := some { cx := 0, cy := 0, w := 1, h := 1, rot := 0 },
        inner_triple_ellipse := some { cx := 0, cy := 0, w := 1, h := 1, rot := 0 },
        bull_ellipse := some { cx := 0, cy := 0, w := 1, h := 1, rot := 0 },
        bullseye_ellipse := some { cx := 0, cy := 0, w := 1, h := 1, rot := 0 },
        tps_cache := { src_points := [], dst_points := [], valid := false } }).valid = true := by
  have h := build_transform_control_points (fun _ _ => some (0, 0))
    { center := (0, 0),
      segment_angles := [0, 1, 2, 3, 4, 5, 6, 7, 8, 9, 10, 11, 12, 13, 14, 15, 16, 17, 18, 19],
      segment_20_index := 0,
      outer_double_ellipse := some { cx := 0, cy := 0, w := 1, h := 1, rot := 0 },
      inner_double_ellipse := some { cx := 0, cy := 0, w := 1, h := 1, rot := 0 },
      outer_triple_ellipse := some { cx := 0, cy := 0, w := 1, h := 1, rot := 0 },
      inner_triple_ellipse := some { cx := 0, cy := 0, w := 1, h := 1, rot := 0 },
      bull_ellipse := some { cx := 0, cy := 0, w := 1, h := 1, rot := 0 },
      bullseye_ellipse := some { cx := 0, cy := 0, w := 1, h := 1, rot := 0 },
      tps_cache := { src_points := [], dst_points := [], valid := false } }
    rfl rfl rfl rfl rfl rfl rfl (fun _ _ => rfl)
  exact ⟨h.1, h.2.2.2.2.2.2.1⟩

theorem atan2_sin_cos (r t : Real) (hr : 0 < r) (hlb : -Real.pi < t + Real.pi / 2)
    (hub : t + Real.pi / 2 ≤ Real.pi) :
    atan2 (r * Real.cos t) (-(r * Real.sin t)) = t + Real.pi / 2 := by
  unfold atan2
  have hmul : (Complex.ofReal (-(r * Real.sin t)) +
      Complex.ofReal (r * Real.cos t) * Complex.I : Complex) =
      (Complex.ofReal r) * (Complex.ofReal (Real.cos (t + Real.pi / 2)) +
        Complex.ofReal (Real.sin (t + Real.pi / 2)) * Complex.I) := by
    rw [Real.cos_add_pi_div_two, Real.sin_add_pi_div_two]
    push_cast
    ring
  rw [hmul, Complex.arg_real_mul _ hr, Complex.ofReal_cos, Complex.ofReal_sin,
    Complex.arg_cos_add_sin_mul_I ⟨hlb, hub⟩]

theorem atan2_sin_cos_wrap (r t : Real) (hr : 0 < r) (hlb : Real.pi < t + Real.pi / 2)
    (hub : t + Real.pi / 2 ≤ 3 * Real.pi) :
    atan2 (r * Real.cos t) (-(r * Real.sin t)) = t + Real.pi / 2 - 2 * Real.pi := by
  have h := atan2_sin_cos r (t - 2 * Real.pi) hr (by linarith) (by linarith)
  rw [Real.cos_sub_two_pi, Real.sin_sub_two_pi] at h
  rw [h]
  ring

theorem realFmod_eq (x : Real) (k : Int) (h1 : 360 * (k : Real) ≤ x)
    (h2 : x < 360 * ((k : Real) + 1)) :
    realFmod x 360 = x - 360 * k := by
  unfold realFmod
  have hfl : ⌊x / 360⌋ = k := by
    rw [Int.floor_eq_iff]
    constructor
    · rw [le_div_iff₀ (by norm_num : (0 : Real) < 360)]
      linarith
    · rw [div_lt_iff₀ (by norm_num : (0 : Real) < 360)]
      linarith
  rw [hfl]

/-- C3: for every board point at positive radius r and clockwise-from-top
angle in the span of segment index i (18 degrees per segment, boundaries 9
degrees either side of the center), the scoring of plot_from_debug resolves
the segment to SEGMENT_ORDER[i]; the calibrated segment-20 boundary index maps
to board index 0, where SEGMENT_ORDER places segment 20. -/
theorem segment_resolution (r t : Real) (i : Nat) (hr : 0 < r) (hi : i < 20)
    (h1 : 18 * (i : Real) - 9 ≤ t) (h2 : t < 18 * (i : Real) + 9) :
    (scoreSegment (r * Real.sin (t * Real.pi / 180)) (r * Real.cos (t * Real.pi / 180)) =
      SEGMENT_ORDER.getD i 0) ∧
    (∀ s20 : Int, board_idx s20 s20 = 0) ∧
    SEGMENT_ORDER.getD 0 0 = 20 := by
  have hpi := Real.pi_pos
  have hilo : (0 : Real) ≤ (i : Real) := Nat.cast_nonneg i
  have hihi : (i : Real) ≤ 19 := by
    have : i ≤ 19 := Nat.lt_succ_iff.mp hi
    exact_mod_cast this
  have htlo : (-9 : Real) ≤ t := by linarith
  have hthi : t < 351 := by linarith
  have hang : scoreAngleDeg (r * Real.sin (t * Real.pi / 180))
      (r * Real.cos (t * Real.pi / 180)) = (if t < 270 then t + 90 else t - 270) := by
    by_cases hcase : t ≤ 90
    · have hA := atan2_sin_cos r (t * Real.pi / 180) hr
        (by nlinarith [mul_pos hpi (show (0 : Real) < t + 270 by linarith)])
        (by nlinarith [mul_nonneg hpi.le (show (0 : Real) ≤ 90 - t by linarith)])
      simp only [scoreAngleDeg]
      rw [hA]
      have heq : (t * Real.pi / 180 + Real.pi / 2) * 180 / Real.pi = t + 90 := by
        field_simp
        ring
      rw [heq, if_neg (by linarith), if_pos (by linarith)]
    · push_neg at hcase
      have hA := atan2_sin_cos_wrap r (t * Real.pi / 180) hr
        (by nlinarith [mul_pos hpi (show (0 : Real) < t - 90 by linarith)])
        (by nlinarith [mul_nonneg hpi.le (show (0 : Real) ≤ 450 - t by linarith)])
      simp only [scoreAngleDeg]
      rw [hA]
      have heq : (t * Real.pi / 180 + Real.pi / 2 - 2 * Real.pi) * 180 / Real.pi = t - 270 := by
        field_simp
        ring
      rw [heq]
      by_cases hc2 : t < 270
      · rw [if_pos (by linarith), if_pos hc2]
        ring
      · rw [if_neg (by linarith), if_neg hc2]
  have hadj : realFmod ((if t < 270 then t + 90 else t - 270) - 90 + 9 + 360) 360 = t + 9 := by
    by_cases hc2 : t < 270
    · rw [if_pos hc2, realFmod_eq _ 1 (by push_cast; linarith) (by push_cast; linarith)]
      push_cast
      ring
    · rw [if_neg hc2, realFmod_eq _ 0 (by push_cast; linarith) (by push_cast; linarith)]
      push_cast
      ring
  have hidx : scoreSegIdx (r * Real.sin (t * Real.pi / 180))
      (r * Real.cos (t * Real.pi / 180)) = (i : Int) := by
    simp only [scoreSegIdx]
    rw [hang, hadj]
    have hfl : ⌊(t + 9) / 18⌋ = (i : Int) := by
      rw [Int.floor_eq_iff]
      constructor
      · rw [le_div_iff₀ (by norm_num : (0 : Real) < 18)]
        push_cast
        linarith
      · rw [div_lt_iff₀ (by norm_num : (0 : Real) < 18)]
        push_cast
        linarith
    rw [hfl, Int.emod_eq_of_lt (Int.natCast_nonneg i) (by exact_mod_cast hi)]
  refine ⟨?_, ?_, rfl⟩
  · simp only [scoreSegment, hidx, Int.toNat_natCast]
  · intro s20
    unfold board_idx
    rw [sub_self]
    decide

/-- Witness for C3 at a concrete input: the point at angle 90 (the right of
the board, segment index 5) scores segment 6. -/
theorem segment_resolution_witness :
    scoreSegment (1 * Real.sin (90 * Real.pi / 180)) (1 * Real.cos (90 * Real.pi / 180)) = 6 := by
  have h := segment_resolution 1 90 5 (by norm_num) (by norm_num) (by norm_num) (by norm_num)
  exact h.1.trans (by rfl)
